import Mathlib

/-!
Verification of the VersePulse patch-notes monitor.

The Python sources (app/summarizer.py, app/scraper.py, app/notifier.py,
app/database.py, app/main.py) are shallowly embedded below.  Strings are
modelled as lists of characters (`Str`); the Python string primitives that
the code uses (`strip`, `split`, `upper`, `lower`, `startswith`, `in`,
slicing) are given executable character-level definitions.  `str.upper` /
`str.lower` are modelled character-wise (ASCII), and `str.strip` strips the
ASCII whitespace characters recognised by `Char.isWhitespace`; the inputs
relevant to the claims are ASCII, where these models agree with Python.
-/

namespace VersePulse

/-- Character-list model of a Python `str`. -/
abbrev Str := List Char

/-- Remove leading whitespace characters (left part of Python `str.strip`). -/
def chTrimLeft : Str → Str
  | [] => []
  | c :: cs => if c.isWhitespace then chTrimLeft cs else c :: cs

/-- Python `str.strip()`: drop whitespace from both ends. -/
def chTrim (cs : Str) : Str :=
  ((chTrimLeft ((chTrimLeft cs).reverse)).reverse)

/-- Python `str.split(sep)` for a one-character separator. -/
def chSplit (sep : Char) (cs : Str) : List Str :=
  cs.foldr
    (fun c acc =>
      match acc with
      | r :: rs => if c = sep then [] :: (r :: rs) else (c :: r) :: rs
      | [] => [[c]])
    [[]]

/-- Python `str.upper()` (character-wise ASCII model). -/
def chUpper (cs : Str) : Str := cs.map Char.toUpper

/-- Python `str.lower()` (character-wise ASCII model). -/
def chLower (cs : Str) : Str := cs.map Char.toLower

/-- Python `str.startswith(pat)`. -/
def chStartsWith (pat cs : Str) : Bool := pat.isPrefixOf cs

/-- Python `pat in s` (substring containment). -/
def chContainsSub (pat : Str) : Str → Bool
  | [] => pat.isEmpty
  | c :: cs => pat.isPrefixOf (c :: cs) || chContainsSub pat cs

/-- Python `str.split(sep, 1)` for a one-character separator: a list of one
or two pieces, split at the first occurrence of `sep`. -/
def chSplit1 (sep : Char) : Str → List Str
  | [] => [[]]
  | c :: cs =>
    if c = sep then [[], cs]
    else
      match chSplit1 sep cs with
      | [] => [[c]]
      | r :: rs => (c :: r) :: rs

/-- The `chSplit1` result is never the empty list (Python `split` always
returns at least one piece), so indexing it with `[-1]` cannot fail. -/
theorem chSplit1_ne_nil (sep : Char) : ∀ cs : Str, chSplit1 sep cs ≠ []
  | [] => by simp [chSplit1]
  | c :: cs => by
    simp only [chSplit1]
    split
    · simp
    · cases h : chSplit1 sep cs <;> simp

/-- For a nonempty list, `getLast?` returns the `getLastD` value. -/
theorem getLast?_eq_getLastD {α : Type} :
    ∀ (l : List α), l ≠ [] → ∀ d : α, l.getLast? = some (l.getLastD d)
  | [], h, _ => absurd rfl h
  | [a], _, d => by simp [List.getLastD]
  | a :: b :: bs, _, d => by
    rw [List.getLast?_cons_cons]
    show (b :: bs).getLast? = some ((b :: bs).getLastD a)
    exact getLast?_eq_getLastD (b :: bs) (by simp) a

/-! ### app/summarizer.py -/

/-- Result type of `summarize_patch` / `parse_llm_response`
(`@dataclass PatchSummary` in app/summarizer.py). -/
structure PatchSummary where
  summary : String
  features : List String
  deriving DecidableEq, Repr

/-- The literal `"SUMMARY:"`. -/
def summKey : Str := ("SUMMARY:").data

/-- The literal `"FEATURES:"`. -/
def featKey : Str := ("FEATURES:").data

/-- The literal `"none"`. -/
def noneKey : Str := ("none").data

/-- The test `line.upper().startswith("SUMMARY:")` from the summary scan of
`parse_llm_response`. -/
def isSummLine (l : Str) : Bool := chStartsWith summKey (chUpper l)

/-- The test `"FEATURES:" in line.upper()` from the features scan of
`parse_llm_response`. -/
def isFeatLine (l : Str) : Bool := chContainsSub featKey (chUpper l)

/-- The summary-scan loop of `parse_llm_response`: `summary` starts as the
fallback title and is replaced (with a `break`) by `line[8:].strip()` at the
first line whose uppercase form starts with `"SUMMARY:"`. -/
def summLoop (fallback : Str) : List Str → Str
  | [] => fallback
  | l :: ls => if isSummLine l then chTrim (l.drop 8) else summLoop fallback ls

/-- The features-scan loop of `parse_llm_response`.  State `inF` is the
Python `in_features` flag; `acc` is the accumulated `features` list.
Each line containing `"FEATURES:"` (uppercased) is handled by the header
branch: `after_colon = line.split(":", 1)[-1].strip()` is appended (minus
its leading `"-"`, stripped) only when it is neither `"none"` nor empty and
starts with `"-"`.  Once `in_features` holds, any other line is stripped
and, when it starts with `"-"` or `"*"`, the stripped remainder is appended
unless it is empty or `"none"` (case-insensitively). -/
def featLoop : List Str → Bool → List Str → List Str
  | [], _, acc => acc
  | l :: ls, inF, acc =>
    if isFeatLine l then
      let after := chTrim ((chSplit1 ':' l).getLastD [])
      let acc' :=
        if chLower after = noneKey ∨ after = [] then acc
        else if chStartsWith ("-").data after then acc ++ [chTrim (after.drop 1)]
        else acc
      featLoop ls true acc'
    else if inF then
      let tl := chTrim l
      if chStartsWith ("-").data tl then
        let f := chTrim (tl.drop 1)
        featLoop ls inF (if f ≠ [] ∧ chLower f ≠ noneKey then acc ++ [f] else acc)
      else if chStartsWith ("*").data tl then
        let f := chTrim (tl.drop 1)
        featLoop ls inF (if f ≠ [] ∧ chLower f ≠ noneKey then acc ++ [f] else acc)
      else featLoop ls inF acc
    else featLoop ls inF acc

/-- The line list `response.strip().split("\n")` built at the start of
`parse_llm_response`. -/
def pyLines (s : String) : List Str := chSplit '\n' (chTrim s.data)

/-- Embedding of `parse_llm_response(response, fallback_title)`
(app/summarizer.py, lines 126-162). -/
def parseLLMResponse (response fallback : String) : PatchSummary :=
  let lines := pyLines response
  { summary := ⟨summLoop fallback.data lines⟩
    features := (featLoop lines false []).map (fun cs => (⟨cs⟩ : String)) }

/-- Variant of `featLoop` in which the only partial Python operation of
`parse_llm_response` — the `[-1]` index into the result of
`line.split(":", 1)` — is modelled faithfully as a fallible lookup that
raises (returns `.error`) on an empty list, exactly where Python would
raise `IndexError`. -/
def featLoopE : List Str → Bool → List Str → Except String (List Str)
  | [], _, acc => .ok acc
  | l :: ls, inF, acc =>
    if isFeatLine l then
      match (chSplit1 ':' l).getLast? with
      | none => .error "list index out of range"
      | some last =>
        let after := chTrim last
        let acc' :=
          if chLower after = noneKey ∨ after = [] then acc
          else if chStartsWith ("-").data after then acc ++ [chTrim (after.drop 1)]
          else acc
        featLoopE ls true acc'
    else if inF then
      let tl := chTrim l
      if chStartsWith ("-").data tl then
        let f := chTrim (tl.drop 1)
        featLoopE ls inF (if f ≠ [] ∧ chLower f ≠ noneKey then acc ++ [f] else acc)
      else if chStartsWith ("*").data tl then
        let f := chTrim (tl.drop 1)
        featLoopE ls inF (if f ≠ [] ∧ chLower f ≠ noneKey then acc ++ [f] else acc)
      else featLoopE ls inF acc
    else featLoopE ls inF acc

/-- Embedding of `parse_llm_response` with the fallible `[-1]` indexing
made explicit; `.error` marks the (unreachable) `IndexError` path. -/
def parseLLMResponseE (response fallback : String) : Except String PatchSummary :=
  let lines := pyLines response
  match featLoopE lines false [] with
  | .error e => .error e
  | .ok fs =>
    .ok { summary := ⟨summLoop fallback.data lines⟩
          features := fs.map (fun cs => (⟨cs⟩ : String)) }

example :
    parseLLMResponse
      ("SUMMARY: This patch adds new ships and improves performance.\n\nFEATURES:\n- New Drake Corsair ship\n- New mission types\n- Improved lighting system")
      ("Fallback Title")
    = { summary := "This patch adds new ships and improves performance."
        features := ["New Drake Corsair ship", "New mission types", "Improved lighting system"] } := by
  decide

example :
    parseLLMResponse ("SUMMARY: Bug fixes only.\n\nFEATURES: None") ("Fallback")
    = { summary := "Bug fixes only.", features := [] } := by decide

example :
    parseLLMResponse ("Some random text without proper format") ("Fallback Title")
    = { summary := "Fallback Title", features := [] } := by decide

/-! ### app/scraper.py -/

/-- Post record (`@dataclass PatchPost` in app/scraper.py). -/
structure PatchPost where
  post_id : String
  title : String
  url : String
  content : String := ""
  deriving DecidableEq, Repr

/-- An anchor element, as seen by `scrape_forum_threads`: its `href`
attribute (`None` when absent) and its visible inner text. -/
structure Link where
  href : Option String := none
  text : String := ""
  deriving DecidableEq, Repr

/-- A thread element matched by one of the `thread_selectors`: the result
of `thread.query_selector("a[href*=\x27/thread/\x27]")`, the element's own
`href` attribute, and its own inner text. -/
structure ThreadElem where
  link : Option Link := none
  href : Option String := none
  text : String := ""
  deriving DecidableEq, Repr

/-- Python truthiness of an optional string (`None` and `""` are falsy). -/
def truthy : Option String → Bool
  | none => false
  | some s => !s.isEmpty

/-- The literal `"/thread/"` from the pattern `r"/thread/(\d+)"`. -/
def threadKey : Str := ("/thread/").data

/-- Embedding of `re.search(r"/thread/(\d+)", href)`: scan left to right
for the first position where `"/thread/"` occurs followed by at least one
digit; the captured group is the maximal digit run after the literal. -/
def threadIdSearch : Str → Option Str
  | [] => none
  | c :: cs =>
    if threadKey.isPrefixOf (c :: cs) then
      let ds := ((c :: cs).drop threadKey.length).takeWhile Char.isDigit
      if ds = [] then threadIdSearch cs else some ds
    else threadIdSearch cs

/-- The URL normalisation of `scrape_forum_threads`: prepend the site host
when `href` starts with `"/"`. -/
def mkFullUrl (href : String) : String :=
  if chStartsWith (("/").data) href.data then
    ("https://robertsspaceindustries.com") ++ href
  else href

/-- Body of the fallback-branch loop of `scrape_forum_threads`
(app/scraper.py, lines 68-83): require a truthy `href` and a nonempty
stripped title, then extract the post id with the `/thread/(\d+)` search;
a `None` result of the search drops the anchor. -/
def anchorToPost (lk : Link) : Option PatchPost :=
  let title := chTrim lk.text.data
  if truthy lk.href ∧ title ≠ [] then
    let href := lk.href.getD ""
    match threadIdSearch href.data with
    | some ds =>
      some { post_id := ⟨ds⟩, title := ⟨title⟩, url := mkFullUrl href, content := "" }
    | none => none
  else none

/-- The link-resolution step of the primary-branch loop: use the inner
anchor found by `query_selector` when present, otherwise treat the thread
element itself as the link when its own `href` attribute is truthy. -/
def threadLink (t : ThreadElem) : Option Link :=
  match t.link with
  | some l => some l
  | none => if truthy t.href then some { href := t.href, text := t.text } else none

/-- Body of the primary-branch loop of `scrape_forum_threads`
(app/scraper.py, lines 85-106): after resolving the link, require only a
truthy `href` (the title is not checked); an empty stripped title is
replaced by the placeholder `"Post {post_id}"`. -/
def threadToPost (t : ThreadElem) : Option PatchPost :=
  match threadLink t with
  | none => none
  | some l =>
    let title := chTrim l.text.data
    if truthy l.href then
      let href := l.href.getD ""
      match threadIdSearch href.data with
      | some ds =>
        some { post_id := ⟨ds⟩
               title := if title = [] then ("Post ") ++ ⟨ds⟩ else ⟨title⟩
               url := mkFullUrl href, content := "" }
      | none => none
    else none

/-- Embedding of `scrape_forum_threads` (app/scraper.py, lines 26-119),
parameterised by the browser query results: `threads` is the element list
returned by the first successful thread selector (empty when none matched)
and `links` the anchors of the `a[href*=...]` fallback query.  Both loops
run over at most the first 10 elements (`threads[:10]` / `links[:10]`) and
append one post per element that passes the branch's checks. -/
def scrapeForumThreads (threads : List ThreadElem) (links : List Link) : List PatchPost :=
  if threads.isEmpty then (links.take 10).filterMap anchorToPost
  else (threads.take 10).filterMap threadToPost

/-- The `content_selectors` list of `scrape_post_content`
(app/scraper.py, lines 140-147). -/
def contentSelectors : List String :=
  [(".thread-content .content-main"), (".message-content"), (".post-content"),
   ("[class*=\x27ThreadContent\x27]"), (".content-main"), ("article")]

/-- The selector loop of `scrape_post_content` (app/scraper.py, lines
149-157): for each selector in order, when the page query returns at least
one element, `content` is set to the first element's inner text and the
loop breaks as soon as `len(content) > 100`. -/
def contentLoop (q : String → List String) : List String → String → String
  | [], content => content
  | sel :: rest, content =>
    match q sel with
    | [] => contentLoop q rest content
    | e :: _ => if 100 < e.length then e else contentLoop q rest e

/-- Embedding of the content-selection part of `scrape_post_content`
(app/scraper.py, lines 140-166), parameterised by the page's query results
`q` and the page body text used by the `page.inner_text("body")` fallback.
After the loop, an empty `content` falls back to the body text, and the
result is `content.strip()[:8000]`. -/
def scrapePostContent (q : String → List String) (body : String) : String :=
  let content := contentLoop q contentSelectors ""
  let content := if content = ("") then body else content
  ⟨(chTrim content.data).take 8000⟩

/-! ### app/database.py -/

/-- One row of the `seen_posts` table (columns `post_id`, `title`, `url`;
`seen_at` is a database-side timestamp default and carries no information
used by the code). -/
structure SeenEntry where
  post_id : String
  title : String
  url : String
  deriving DecidableEq, Repr

/-- Embedding of `is_post_seen(post_id)` (app/database.py, lines 31-40):
`SELECT 1 FROM seen_posts WHERE post_id = ?` finds a row or not. -/
def isPostSeen (seen : List SeenEntry) (pid : String) : Bool :=
  seen.any (fun e => e.post_id == pid)

/-- Embedding of `mark_post_seen(post_id, title, url)` (app/database.py,
lines 43-54): `INSERT OR IGNORE` on the `post_id` primary key inserts a
row only when none with that key exists. -/
def markPostSeen (seen : List SeenEntry) (pid title url : String) : List SeenEntry :=
  if isPostSeen seen pid then seen else seen ++ [{ post_id := pid, title := title, url := url }]

/-! ### app/notifier.py -/

/-- Python `"\n".join(parts)`. -/
def pyJoin (sep : String) : List String → String
  | [] => ""
  | [s] => s
  | s :: s' :: rest => s ++ sep ++ pyJoin sep (s' :: rest)

/-- The `body_parts` list built by `send_notification` (app/notifier.py,
lines 19-28): summary, a blank line, then — only when `features` is
nonempty — a `"New Features:"` header, a bullet per feature limited to
`features[:10]`, and a blank line, followed by the read-more link. -/
def bodyParts (summary : String) (features : List String) (url : String) : List String :=
  ([summary, ""] ++
    (if features.isEmpty then []
     else [("New Features:")] ++ (features.take 10).map (fun f => ("• ") ++ f) ++ [""])) ++
  [("Read more: ") ++ url]

/-- The notification body `"\n".join(body_parts)` delivered by
`send_notification` (app/notifier.py, line 30). -/
def sendNotificationBody (summary : String) (features : List String) (url : String) : String :=
  pyJoin ("\n") (bodyParts summary features url)

/-! ### app/main.py -/

/-- One iteration of the `for post in posts` loop of `check_for_new_posts`
(app/main.py, lines 45-71), parameterised by the effectful collaborators:
`gc` is `scrape_post_content`, `sm` is `summarize_patch`, and `nt` is
`send_notification` (receiving title, summary, features, url and returning
the delivery-success flag).  `attempted` records whether the notification
was attempted (i.e. the post was not skipped by `is_post_seen`), `success`
the delivery result. -/
structure StepResult where
  seen : List SeenEntry
  attempted : Bool
  success : Bool
  deriving DecidableEq, Repr

def processPost (gc : PatchPost → String) (sm : String → String → PatchSummary)
    (nt : String → String → List String → String → Bool)
    (seen : List SeenEntry) (post : PatchPost) : StepResult :=
  if isPostSeen seen post.post_id then { seen := seen, attempted := false, success := false }
  else
    let p := { post with content := gc post }
    let s := sm p.title p.content
    let ok := nt p.title s.summary s.features p.url
    if ok then
      { seen := markPostSeen seen p.post_id p.title p.url, attempted := true, success := true }
    else { seen := seen, attempted := true, success := false }

/-- Embedding of the whole post loop of `check_for_new_posts`: fold the
per-post step over the discovered posts, threading the seen set. -/
def checkForNewPosts (gc : PatchPost → String) (sm : String → String → PatchSummary)
    (nt : String → String → List String → String → Bool)
    (seen : List SeenEntry) (posts : List PatchPost) : List SeenEntry :=
  posts.foldl (fun s p => (processPost gc sm nt s p).seen) seen

/-! ### Claims C1 and C2: the dedup/delivery coordinator -/

/-- Inserting a row for `pid` makes `is_post_seen pid` true. -/
theorem isPostSeen_append_self (seen : List SeenEntry) (pid title url : String) :
    isPostSeen (seen ++ [{ post_id := pid, title := title, url := url }]) pid = true := by
  unfold isPostSeen
  rw [List.any_append]
  simp

/-- After `mark_post_seen pid`, `is_post_seen pid` holds. -/
theorem isPostSeen_markPostSeen_self (seen : List SeenEntry) (pid title url : String)
    (h : isPostSeen seen pid = false) :
    isPostSeen (markPostSeen seen pid title url) pid = true := by
  unfold markPostSeen
  simp only [h, Bool.false_eq_true, if_false]
  exact isPostSeen_append_self seen pid title url

/-- A post already in the seen set is skipped with no side effect. -/
theorem processPost_seen (gc : PatchPost → String) (sm : String → String → PatchSummary)
    (nt : String → String → List String → String → Bool)
    (seen : List SeenEntry) (post : PatchPost)
    (h : isPostSeen seen post.post_id = true) :
    processPost gc sm nt seen post = { seen := seen, attempted := false, success := false } := by
  unfold processPost
  simp only [h, if_true]

/-- A new post whose delivery succeeds is recorded via `mark_post_seen`. -/
theorem processPost_new_delivered (gc : PatchPost → String) (sm : String → String → PatchSummary)
    (nt : String → String → List String → String → Bool)
    (seen : List SeenEntry) (post : PatchPost)
    (h : isPostSeen seen post.post_id = false)
    (hnt : nt post.title (sm post.title (gc post)).summary
        (sm post.title (gc post)).features post.url = true) :
    processPost gc sm nt seen post
      = { seen := markPostSeen seen post.post_id post.title post.url
          attempted := true, success := true } := by
  unfold processPost
  simp only [h, Bool.false_eq_true, if_false, hnt, if_true]

/-- A new post whose delivery fails leaves the seen set unchanged. -/
theorem processPost_new_failed (gc : PatchPost → String) (sm : String → String → PatchSummary)
    (nt : String → String → List String → String → Bool)
    (seen : List SeenEntry) (post : PatchPost)
    (h : isPostSeen seen post.post_id = false)
    (hnt : nt post.title (sm post.title (gc post)).summary
        (sm post.title (gc post)).features post.url = false) :
    processPost gc sm nt seen post = { seen := seen, attempted := true, success := false } := by
  unfold processPost
  simp only [h, Bool.false_eq_true, if_false, hnt, if_true]

/-- C1: for every processed item (one not skipped by the `is_post_seen`
check), `check_for_new_posts` writes the item's id to the seen set if and
only if `send_notification` returns success; when delivery fails, the seen
set is unchanged, leaving the item eligible for reprocessing. -/
theorem c1_mark_seen_iff_delivery (gc : PatchPost → String)
    (sm : String → String → PatchSummary)
    (nt : String → String → List String → String → Bool)
    (seen : List SeenEntry) (post : PatchPost)
    (h : isPostSeen seen post.post_id = false) :
    (processPost gc sm nt seen post).success
      = nt post.title (sm post.title (gc post)).summary (sm post.title (gc post)).features post.url
    ∧ isPostSeen (processPost gc sm nt seen post).seen post.post_id
      = (processPost gc sm nt seen post).success
    ∧ ((processPost gc sm nt seen post).success = false
        → (processPost gc sm nt seen post).seen = seen) := by
  cases hnt : nt post.title (sm post.title (gc post)).summary
      (sm post.title (gc post)).features post.url with
  | false =>
    rw [processPost_new_failed gc sm nt seen post h hnt]
    exact ⟨rfl, h, fun _ => rfl⟩
  | true =>
    rw [processPost_new_delivered gc sm nt seen post h hnt]
    refine ⟨rfl, isPostSeen_markPostSeen_self seen post.post_id post.title post.url h, ?_⟩
    intro hfalse
    exact absurd hfalse (by simp)

/-- Concrete run of `c1_mark_seen_iff_delivery`. -/
def gcW : PatchPost → String := fun _ => ("C")

/-- Concrete summarizer oracle for witnesses. -/
def smW : String → String → PatchSummary := fun _ _ => { summary := "S", features := [("F")] }

/-- Delivery oracle that always succeeds. -/
def ntW : String → String → List String → String → Bool := fun _ _ _ _ => true

/-- Delivery oracle that always fails. -/
def ntFW : String → String → List String → String → Bool := fun _ _ _ _ => false

/-- Concrete post for witnesses. -/
def postW : PatchPost := { post_id := "9", title := "T", url := "U" }

theorem c1_mark_seen_iff_delivery_witness :
    isPostSeen [] postW.post_id = false
    ∧ ((processPost gcW smW ntW [] postW).success
        = ntW postW.title (smW postW.title (gcW postW)).summary
            (smW postW.title (gcW postW)).features postW.url
      ∧ isPostSeen (processPost gcW smW ntW [] postW).seen postW.post_id
        = (processPost gcW smW ntW [] postW).success
      ∧ ((processPost gcW smW ntW [] postW).success = false
          → (processPost gcW smW ntW [] postW).seen = [])) :=
  ⟨by decide, c1_mark_seen_iff_delivery gcW smW ntW [] postW (by decide)⟩

/-- C2: processing the same post twice in sequence: the first pass always
attempts delivery; once the first delivery succeeds (and is recorded), the
second pass skips the item — no second notification attempt and no change
to the seen set; if the first delivery fails, the second pass attempts the
notification again. -/
theorem c2_no_double_send (gc : PatchPost → String) (sm : String → String → PatchSummary)
    (nt1 nt2 : String → String → List String → String → Bool)
    (seen : List SeenEntry) (post : PatchPost)
    (h : isPostSeen seen post.post_id = false) :
    (processPost gc sm nt1 seen post).attempted = true
    ∧ ((processPost gc sm nt1 seen post).success = true
        → (processPost gc sm nt2 (processPost gc sm nt1 seen post).seen post).attempted = false
          ∧ (processPost gc sm nt2 (processPost gc sm nt1 seen post).seen post).seen
              = (processPost gc sm nt1 seen post).seen)
    ∧ ((processPost gc sm nt1 seen post).success = false
        → (processPost gc sm nt2 (processPost gc sm nt1 seen post).seen post).attempted = true) := by
  cases hnt : nt1 post.title (sm post.title (gc post)).summary
      (sm post.title (gc post)).features post.url with
  | false =>
    rw [processPost_new_failed gc sm nt1 seen post h hnt]
    refine ⟨rfl, ?_, ?_⟩
    · intro hfalse
      exact absurd hfalse (by simp)
    · intro _
      cases hnt2 : nt2 post.title (sm post.title (gc post)).summary
          (sm post.title (gc post)).features post.url with
      | false => rw [processPost_new_failed gc sm nt2 seen post h hnt2]
      | true => rw [processPost_new_delivered gc sm nt2 seen post h hnt2]
  | true =>
    rw [processPost_new_delivered gc sm nt1 seen post h hnt]
    refine ⟨rfl, ?_, ?_⟩
    · intro _
      rw [processPost_seen gc sm nt2 _ post
        (isPostSeen_markPostSeen_self seen post.post_id post.title post.url h)]
      exact ⟨rfl, rfl⟩
    · intro hfalse
      exact absurd hfalse (by simp)

theorem c2_no_double_send_witness :
    isPostSeen [] postW.post_id = false
    ∧ ((processPost gcW smW ntW [] postW).attempted = true
      ∧ ((processPost gcW smW ntW [] postW).success = true
          → (processPost gcW smW ntFW (processPost gcW smW ntW [] postW).seen postW).attempted = false
            ∧ (processPost gcW smW ntFW (processPost gcW smW ntW [] postW).seen postW).seen
                = (processPost gcW smW ntW [] postW).seen)
      ∧ ((processPost gcW smW ntW [] postW).success = false
          → (processPost gcW smW ntFW (processPost gcW smW ntW [] postW).seen postW).attempted = true)) :=
  ⟨by decide, c2_no_double_send gcW smW ntW ntFW [] postW (by decide)⟩

/-! ### Claim C6: the parser is total -/

/-- The instrumented features loop never reaches the `IndexError` path:
`line.split(":", 1)` always returns a nonempty list, so `[-1]` succeeds. -/
theorem featLoopE_eq_ok : ∀ (ls : List Str) (inF : Bool) (acc : List Str),
    featLoopE ls inF acc = Except.ok (featLoop ls inF acc)
  | [], _, _ => rfl
  | l :: ls, inF, acc => by
    rw [featLoopE, featLoop,
      getLast?_eq_getLastD (chSplit1 ':' l) (chSplit1_ne_nil ':' l) ([] : Str)]
    cases hf : isFeatLine l with
    | true => simp only [if_true]; exact featLoopE_eq_ok ls true _
    | false =>
      simp only [Bool.false_eq_true, if_false]
      cases inF with
      | false => exact featLoopE_eq_ok ls false acc
      | true =>
        by_cases h1 : chStartsWith (("-").data) (chTrim l) = true
        · simp only [h1, if_true]; exact featLoopE_eq_ok ls true _
        · simp only [h1, if_false]
          by_cases h2 : chStartsWith (("*").data) (chTrim l) = true
          · simp only [h2, if_true]; exact featLoopE_eq_ok ls true _
          · simp only [h2, if_false]; exact featLoopE_eq_ok ls true acc

/-- C6: the parser is total — for every input string and fallback title,
`parse_llm_response` returns a `PatchSummary` without raising: the
instrumented embedding, in which the single fallible operation (the `[-1]`
list index) may raise, always returns `.ok` of the pure result. -/
theorem c6_parse_total (r t : String) :
    parseLLMResponseE r t = Except.ok (parseLLMResponse r t) := by
  simp only [parseLLMResponseE, parseLLMResponse, featLoopE_eq_ok]

/-! ### Claim C4: the summary line -/

/-- Declarative description of the summary the parser produces: the
remainder (after the 8-character tag, stripped) of the first line of `ls`
whose uppercased form starts with `"SUMMARY:"`, defaulting to the
fallback title. -/
def specSummary (t : String) (ls : List Str) : String :=
  ⟨((ls.find? isSummLine).map (fun l => chTrim (l.drop 8))).getD t.data⟩

/-- The summary scan returns the trimmed remainder of the first matching
line, or the fallback when none matches. -/
theorem summLoop_eq_find? (fb : Str) :
    ∀ ls : List Str,
      summLoop fb ls = ((ls.find? isSummLine).map (fun l => chTrim (l.drop 8))).getD fb
  | [] => rfl
  | l :: ls => by
    cases hs : isSummLine l with
    | true =>
      rw [summLoop]
      simp [hs, List.find?_cons_of_pos]
    | false =>
      rw [summLoop]
      simp only [hs, Bool.false_eq_true, if_false]
      rw [List.find?_cons_of_neg _ (by simp [hs])]
      exact summLoop_eq_find? fb ls

/-- C4 (amended): the summary scan works on the lines of
`response.strip()` — the input with outer whitespace removed — rather than
on the raw lines of the input; on those lines, the first one whose
case-insensitive prefix is `"SUMMARY:"` yields the summary (remainder
trimmed), and if none matches the summary is the fallback title. -/
theorem c4_summary_amended (r t : String) :
    (parseLLMResponse r t).summary = specSummary t (pyLines r) := by
  show (⟨summLoop t.data (pyLines r)⟩ : String) = _
  unfold specSummary
  exact congrArg String.mk (summLoop_eq_find? t.data (pyLines r))

/-- C4 (counterexample): the input `" summary: x"` has a single raw line,
and that line does not have the case-insensitive prefix `"SUMMARY:"` (it
starts with a space), so the claim requires the summary to be the fallback
title `"T"`; the code strips the input first and returns `"x"`. -/
theorem c4_counterexample :
    ((chSplit '\n' ((" summary: x").data)).all (fun l => !(isSummLine l))) = true
    ∧ (parseLLMResponse (" summary: x") ("T")).summary = ("x")
    ∧ (("x") : String) ≠ ("T") := by decide

/-! ### Claim C5: the features list -/

/-- Declarative description of what one line contributes to the features
list once features mode is active.  A line containing `"FEATURES:"`
(uppercased) contributes the text after its first colon only when that
text, stripped, begins with `"-"` and is neither empty nor `"none"`; any
other line contributes its stripped text minus a leading `"-"` or `"*"`
bullet marker, trimmed, unless that remainder is empty or `"none"`
(case-insensitive). -/
def specBullet (l : Str) : Option Str :=
  if isFeatLine l then
    let after := chTrim ((chSplit1 ':' l).getLastD [])
    if chLower after = noneKey ∨ after = [] then none
    else if chStartsWith (("-").data) after then some (chTrim (after.drop 1))
    else none
  else
    let tl := chTrim l
    if chStartsWith (("-").data) tl then
      let f := chTrim (tl.drop 1)
      if f ≠ [] ∧ chLower f ≠ noneKey then some f else none
    else if chStartsWith (("*").data) tl then
      let f := chTrim (tl.drop 1)
      if f ≠ [] ∧ chLower f ≠ noneKey then some f else none
    else none

/-- Declarative description of the whole features list: nothing before the
first `"FEATURES:"` line contributes; that header line may contribute one
inline feature, and every later line contributes via `specBullet`. -/
def specFeatures (ls : List Str) : List Str :=
  match ls.dropWhile (fun l => !isFeatLine l) with
  | [] => []
  | hdr :: rest => (specBullet hdr).toList ++ rest.filterMap specBullet

/-- Reshaping of `filterMap` at a cons in terms of `Option.toList`. -/
theorem filterMap_cons_toList {α β : Type} (f : α → Option β) (a : α) (l : List α) :
    (a :: l).filterMap f = (f a).toList ++ l.filterMap f := by
  cases h : f a <;> simp [List.filterMap_cons, h]

/-- The header-branch accumulation of `featLoop` appends the header line's
`specBullet`-style contribution. -/
theorem header_acc_eq (after : Str) (acc : List Str) :
    (if chLower after = noneKey ∨ after = [] then acc
     else if chStartsWith (("-").data) after then acc ++ [chTrim (after.drop 1)] else acc)
    = acc ++ (if chLower after = noneKey ∨ after = [] then none
              else if chStartsWith (("-").data) after then some (chTrim (after.drop 1))
              else none).toList := by
  by_cases h1 : chLower after = noneKey ∨ after = []
  · rw [if_pos h1, if_pos h1]; simp
  · rw [if_neg h1, if_neg h1]
    by_cases h2 : chStartsWith (("-").data) after = true
    · rw [if_pos h2, if_pos h2]; simp
    · rw [if_neg h2, if_neg h2]; simp

/-- The bullet-branch accumulation of `featLoop` appends the line's
contribution unless it is empty or `"none"`. -/
theorem bullet_acc_eq (f : Str) (acc : List Str) :
    (if f ≠ [] ∧ chLower f ≠ noneKey then acc ++ [f] else acc)
    = acc ++ (if f ≠ [] ∧ chLower f ≠ noneKey then some f else none).toList := by
  by_cases h : f ≠ [] ∧ chLower f ≠ noneKey
  · rw [if_pos h, if_pos h]; simp
  · rw [if_neg h, if_neg h]; simp

/-- Once features mode is on, the loop appends exactly the `specBullet`
contributions of the remaining lines, in order. -/
theorem featLoop_true_eq : ∀ (ls : List Str) (acc : List Str),
    featLoop ls true acc = acc ++ ls.filterMap specBullet
  | [], acc => by simp [featLoop]
  | l :: ls, acc => by
    rw [filterMap_cons_toList]
    cases hf : isFeatLine l with
    | true =>
      rw [featLoop, if_pos hf]
      simp only []
      rw [featLoop_true_eq ls, ← List.append_assoc]
      congr 1
      unfold specBullet
      rw [if_pos hf]
      simp only []
      exact header_acc_eq _ acc
    | false =>
      have hf' : ¬ (isFeatLine l = true) := by simp [hf]
      rw [featLoop, if_neg hf', if_pos rfl]
      simp only []
      by_cases h1 : chStartsWith (("-").data) (chTrim l) = true
      · rw [if_pos h1]
        rw [featLoop_true_eq ls, ← List.append_assoc]
        congr 1
        unfold specBullet
        rw [if_neg hf', if_pos h1]
        simp only []
        exact bullet_acc_eq _ acc
      · rw [if_neg h1]
        by_cases h2 : chStartsWith (("*").data) (chTrim l) = true
        · rw [if_pos h2]
          rw [featLoop_true_eq ls, ← List.append_assoc]
          congr 1
          unfold specBullet
          rw [if_neg hf', if_neg h1, if_pos h2]
          simp only []
          exact bullet_acc_eq _ acc
        · rw [if_neg h2]
          rw [featLoop_true_eq ls]
          have hsb : specBullet l = none := by
            unfold specBullet
            rw [if_neg hf', if_neg h1, if_neg h2]
          rw [hsb]
          simp

/-- Before the first `"FEATURES:"` line, the loop accumulates nothing;
from that line on it behaves as `specFeatures` describes. -/
theorem featLoop_false_eq : ∀ ls : List Str, featLoop ls false [] = specFeatures ls
  | [] => rfl
  | l :: ls => by
    cases hf : isFeatLine l with
    | true =>
      rw [featLoop, if_pos hf]
      simp only []
      rw [featLoop_true_eq ls]
      unfold specFeatures
      rw [List.dropWhile_cons, if_neg (show ¬ ((!isFeatLine l) = true) by simp [hf])]
      change _ = (specBullet l).toList ++ ls.filterMap specBullet
      congr 1
      unfold specBullet
      rw [if_pos hf]
      simp only []
      have := header_acc_eq (chTrim ((chSplit1 ':' l).getLastD [])) []
      simpa using this
    | false =>
      have hf' : ¬ (isFeatLine l = true) := by simp [hf]
      rw [featLoop, if_neg hf', if_neg (show ¬ ((false : Bool) = true) by simp)]
      rw [featLoop_false_eq ls]
      unfold specFeatures
      rw [List.dropWhile_cons, if_pos (show (!isFeatLine l) = true by simp [hf])]

/-- C5 (amended): once features mode is entered at the first line
containing `"FEATURES:"` (case-insensitive), every subsequent line that
does not itself contain `"FEATURES:"` and whose trimmed form begins with
`"-"` or `"*"` contributes one feature (marker stripped, remainder
trimmed) in source order, except that entries which are empty or equal to
`"none"` (case-insensitive) after trimming are discarded; a subsequent
line containing `"FEATURES:"` is re-treated as a section header (its text
after the first colon contributes only when it begins with `"-"` and is
neither empty nor `"none"`); and `"FEATURES: None"` with no bullet lines
yields an empty feature list. -/
theorem c5_features_amended (r t : String) :
    (parseLLMResponse r t).features = (specFeatures (pyLines r)).map (fun cs => (⟨cs⟩ : String))
    ∧ (parseLLMResponse ("FEATURES: None") t).features = [] := by
  constructor
  · show ((featLoop (pyLines r) false []).map _) = _
    rw [featLoop_false_eq]
  · rfl

/-- C5 (counterexample): in the input `"FEATURES:\n-"`, the second line
`"-"` after trimming begins with `"-"` and its trimmed remainder `""` is
not `"none"`, so the claim requires it to contribute one feature; the code
discards empty remainders and returns no features at all. -/
theorem c5_counterexample :
    pyLines ("FEATURES:\n-") = [("FEATURES:").data, ("-").data]
    ∧ chTrim (("-").data) = ("-").data
    ∧ chStartsWith (("-").data) (chTrim (("-").data)) = true
    ∧ chLower (chTrim ((chTrim (("-").data)).drop 1)) ≠ noneKey
    ∧ (parseLLMResponse ("FEATURES:\n-") ("t")).features = [] := by decide

/-! ### Claims C3, C8, C9: thread discovery -/

/-- Wrapping the claim-side option check (`Option.any` over the per-anchor
result). -/
def optAny {α : Type} (p : α → Bool) : Option α → Bool
  | none => false
  | some a => p a

/-- Counting over a `filterMap` counts the elements whose image satisfies
the predicate. -/
theorem countP_filterMap {α β : Type} (f : α → Option β) (p : β → Bool) :
    ∀ l : List α, (l.filterMap f).countP p = l.countP (fun a => optAny p (f a))
  | [] => rfl
  | a :: l => by
    rw [List.countP_cons]
    cases hfa : f a with
    | none =>
      rw [List.filterMap_cons_none hfa, countP_filterMap f p l]
      simp [optAny, hfa]
    | some b =>
      rw [List.filterMap_cons_some hfa, List.countP_cons, countP_filterMap f p l]
      simp [optAny, hfa]

/-- C3 (amended): the fallback branch of thread discovery performs no
per-pass deduplication by id — the output contains one `PatchPost` with a
given id for each of the first 10 anchors that qualifies and resolves to
that id, so two qualifying anchors with the same normalized id yield two
items. -/
theorem c3_no_dedup_amended (links : List Link) (pid : String) :
    (scrapeForumThreads [] links).countP (fun post => post.post_id == pid)
      = (links.take 10).countP
          (fun lk => optAny (fun post => post.post_id == pid) (anchorToPost lk)) := by
  show ((links.take 10).filterMap anchorToPost).countP _ = _
  exact countP_filterMap anchorToPost _ (links.take 10)

/-- C3 (counterexample): two anchors resolving to the same normalized id
`"123"` produce two items with that id — not exactly one. -/
theorem c3_counterexample :
    ((anchorToPost { href := some ("/spectrum/community/SC/forum/190048/thread/123")
                     text := ("Patch Alpha One") }).map (fun p => p.post_id)) = some ("123")
    ∧ ((anchorToPost { href := some ("/spectrum/community/SC/forum/190048/thread/123/page2")
                       text := ("Patch Alpha Reposted") }).map (fun p => p.post_id)) = some ("123")
    ∧ ((scrapeForumThreads []
          [{ href := some ("/spectrum/community/SC/forum/190048/thread/123")
             text := ("Patch Alpha One") },
           { href := some ("/spectrum/community/SC/forum/190048/thread/123/page2")
             text := ("Patch Alpha Reposted") }]).countP
        (fun p => p.post_id == ("123"))) = 2
    ∧ ((scrapeForumThreads []
          [{ href := some ("/spectrum/community/SC/forum/190048/thread/123")
             text := ("Patch Alpha One") },
           { href := some ("/spectrum/community/SC/forum/190048/thread/123/page2")
             text := ("Patch Alpha Reposted") }]).countP
        (fun p => p.post_id == ("123"))) ≠ 1 := by decide

/-- The fallback branch accepts an anchor exactly when its `href` is
truthy, its stripped title is nonempty, and a thread id can be extracted;
no minimum title length is imposed. -/
theorem anchorToPost_isSome (lk : Link) :
    (anchorToPost lk).isSome = true
      ↔ truthy lk.href = true ∧ chTrim lk.text.data ≠ []
        ∧ (threadIdSearch ((lk.href.getD "").data)).isSome = true := by
  unfold anchorToPost
  by_cases hc : truthy lk.href = true ∧ chTrim lk.text.data ≠ []
  · rw [if_pos hc]
    simp only []
    cases hti : threadIdSearch ((lk.href.getD ("")).data) with
    | some ds => simp [hc.1, hc.2, hti]
    | none => simp [hc.1, hc.2, hti]
  · rw [if_neg hc]
    simp only [Option.isSome_none, Bool.false_eq_true, false_iff]
    intro hcon
    exact hc ⟨hcon.1, hcon.2.1⟩

/-- The primary branch accepts a thread element exactly when its resolved
link has a truthy `href` from which a thread id can be extracted; the
title is not consulted at all. -/
theorem threadToPost_isSome (t : ThreadElem) :
    (threadToPost t).isSome = true
      ↔ ∃ l, threadLink t = some l ∧ truthy l.href = true
          ∧ (threadIdSearch ((l.href.getD "").data)).isSome = true := by
  unfold threadToPost
  cases hl : threadLink t with
  | none => simp
  | some l =>
    simp only [hl, Option.some.injEq]
    by_cases hh : truthy l.href = true
    · rw [if_pos hh]
      cases hti : threadIdSearch ((l.href.getD ("")).data) with
      | some ds =>
        simp only [Option.isSome_some, true_iff]
        exact ⟨l, rfl, hh, by rw [hti]; rfl⟩
      | none =>
        simp only [Option.isSome_none, Bool.false_eq_true, false_iff]
        rintro ⟨l', hl', _, hti'⟩
        cases hl'
        rw [hti] at hti'
        exact absurd hti' (by simp)
    · rw [if_neg hh]
      simp only [Option.isSome_none, Bool.false_eq_true, false_iff]
      rintro ⟨l', hl', hh', _⟩
      cases hl'
      exact hh hh'

/-- C8 (amended): in the fallback branch an anchor is dropped only when
its `href` is missing/empty, its stripped visible title is empty, or no
thread id can be extracted — there is no 5-character minimum on titles; in
the primary branch no title condition exists at all (an anchor with an
empty visible title still yields an item, with the placeholder title
`"Post {id}"`). -/
theorem c8_title_filter_amended (lk : Link) (t : ThreadElem) :
    (scrapeForumThreads [] [lk] ≠ []
      ↔ truthy lk.href = true ∧ chTrim lk.text.data ≠ []
        ∧ (threadIdSearch ((lk.href.getD "").data)).isSome = true)
    ∧ (scrapeForumThreads [t] [] ≠ []
      ↔ ∃ l, threadLink t = some l ∧ truthy l.href = true
          ∧ (threadIdSearch ((l.href.getD "").data)).isSome = true) := by
  constructor
  · rw [← anchorToPost_isSome]
    show ([lk].filterMap anchorToPost ≠ [] ↔ _)
    rw [filterMap_cons_toList, List.filterMap_nil, List.append_nil]
    cases hp : anchorToPost lk <;> simp [hp]
  · rw [← threadToPost_isSome]
    have hsc : scrapeForumThreads [t] [] = [t].filterMap threadToPost := rfl
    rw [hsc, filterMap_cons_toList, List.filterMap_nil, List.append_nil]
    cases hp : threadToPost t <;> simp [hp]

/-- C8 (counterexample): a primary-branch thread element with an empty
visible title still produces an item (with placeholder title `"Post 55"`),
and a fallback-branch anchor with the 3-character title `"abc"` (below the
claimed 5-character minimum) also produces an item. -/
theorem c8_counterexample :
    (scrapeForumThreads
        [{ link := some { href := some ("/thread/55"), text := ("") }
           href := none, text := ("") }] [])
      = [{ post_id := ("55"), title := ("Post 55")
           url := ("https://robertsspaceindustries.com/thread/55"), content := ("") }]
    ∧ (scrapeForumThreads [] [{ href := some ("/forum/190048/thread/77"), text := ("abc") }])
      = [{ post_id := ("77"), title := ("abc")
           url := ("https://robertsspaceindustries.com/forum/190048/thread/77"), content := ("") }]
    ∧ (("abc") : String).length < 5 := by decide

/-- A `filterMap` by an everywhere-`some` function preserves length. -/
theorem filterMap_length_all_some {α β : Type} (f : α → Option β) :
    ∀ l : List α, (∀ x ∈ l, (f x).isSome = true) → (l.filterMap f).length = l.length
  | [], _ => rfl
  | a :: l, h => by
    obtain ⟨b, hb⟩ := Option.isSome_iff_exists.mp (h a (List.mem_cons_self a l))
    rw [List.filterMap_cons_some hb, List.length_cons, List.length_cons,
      filterMap_length_all_some f l (fun x hx => h x (List.mem_cons_of_mem a hx))]

/-- C9: when every anchor qualifies, thread discovery returns exactly
`min n 10` items for a listing with `n` anchors (both in the fallback
branch over anchors and in the primary branch over thread elements) — in
particular 50 qualifying anchors yield exactly 10 items. -/
theorem c9_discovery_cap (threads : List ThreadElem) (links : List Link)
    (h1 : ∀ lk ∈ links, (anchorToPost lk).isSome = true)
    (h2 : ∀ t ∈ threads, (threadToPost t).isSome = true) :
    (scrapeForumThreads [] links).length = min links.length 10
    ∧ (threads ≠ [] → (scrapeForumThreads threads links).length = min threads.length 10) := by
  constructor
  · show ((links.take 10).filterMap anchorToPost).length = _
    rw [filterMap_length_all_some _ _ (fun lk hm => h1 lk (List.take_subset 10 links hm))]
    rw [List.length_take, Nat.min_comm]
  · intro hne
    have hemp : threads.isEmpty = false := by
      cases threads with
      | nil => exact absurd rfl hne
      | cons a l => rfl
    unfold scrapeForumThreads
    rw [hemp]
    simp only [Bool.false_eq_true, if_false]
    rw [filterMap_length_all_some _ _ (fun x hm => h2 x (List.take_subset 10 threads hm))]
    rw [List.length_take, Nat.min_comm]

/-- Qualifying anchor used by the C9 witness. -/
def lkQ : Link := { href := some ("/thread/9"), text := ("Patch Notes Alpha") }

theorem c9_discovery_cap_witness :
    (∀ lk ∈ List.replicate 50 lkQ, (anchorToPost lk).isSome = true)
    ∧ (∀ t ∈ ([] : List ThreadElem), (threadToPost t).isSome = true)
    ∧ ((scrapeForumThreads [] (List.replicate 50 lkQ)).length = min (List.replicate 50 lkQ).length 10
      ∧ (([] : List ThreadElem) ≠ []
          → (scrapeForumThreads [] (List.replicate 50 lkQ)).length
              = min ([] : List ThreadElem).length 10)) :=
  ⟨by decide, by decide, c9_discovery_cap [] (List.replicate 50 lkQ) (by decide) (by decide)⟩

/-! ### Claim C7: content-extraction strategy selection -/

/-- Strategy resolution as the claim words it: the first selector in list
order whose first matched element's text has length at least 200. -/
def claimResolve (q : String → List String) : List String → Option String
  | [] => none
  | sel :: rest =>
    match q sel with
    | e :: _ => if 200 ≤ e.length then some e else claimResolve q rest
    | [] => claimResolve q rest

/-- The content-extraction result as the claim describes it: the first
strategy meeting the 200-character minimum, else the body fallback, then
`strip()[:8000]`. -/
def claimScrapePostContent (q : String → List String) (body : String) : String :=
  match claimResolve q contentSelectors with
  | some e => ⟨(chTrim e.data).take 8000⟩
  | none => ⟨(chTrim body.data).take 8000⟩

/-- Strategy resolution as the code actually behaves: the first selector in
list order whose first matched element's text is longer than 100
characters. -/
def specFirstSuccess (q : String → List String) : List String → Option String
  | [] => none
  | sel :: rest =>
    match q sel with
    | e :: _ => if 100 < e.length then some e else specFirstSuccess q rest
    | [] => specFirstSuccess q rest

/-- When some selector succeeds (> 100 characters), the selector loop
returns that first success, whatever content was retained before it. -/
theorem contentLoop_firstSuccess (q : String → List String) :
    ∀ (sels : List String) (c0 e : String),
      specFirstSuccess q sels = some e → contentLoop q sels c0 = e
  | [], c0, e => by intro h; exact absurd h (by simp [specFirstSuccess])
  | sel :: rest, c0, e => by
    intro h
    rw [specFirstSuccess] at h
    rw [contentLoop]
    cases hq : q sel with
    | nil =>
      rw [hq] at h
      exact contentLoop_firstSuccess q rest c0 e h
    | cons x xs =>
      rw [hq] at h
      have h' : (if 100 < x.length then some x else specFirstSuccess q rest) = some e := h
      show (if 100 < x.length then x else contentLoop q rest x) = e
      by_cases hlen : 100 < x.length
      · rw [if_pos hlen] at h' ⊢
        exact Option.some.inj h'
      · rw [if_neg hlen] at h' ⊢
        exact contentLoop_firstSuccess q rest x e h'

/-- A first success always has more than 100 characters. -/
theorem specFirstSuccess_len (q : String → List String) :
    ∀ (sels : List String) (e : String),
      specFirstSuccess q sels = some e → 100 < e.length
  | [], e => by intro h; exact absurd h (by simp [specFirstSuccess])
  | sel :: rest, e => by
    intro h
    rw [specFirstSuccess] at h
    cases hq : q sel with
    | nil =>
      rw [hq] at h
      exact specFirstSuccess_len q rest e h
    | cons x xs =>
      rw [hq] at h
      have h' : (if 100 < x.length then some x else specFirstSuccess q rest) = some e := h
      by_cases hlen : 100 < x.length
      · rw [if_pos hlen] at h'
        rw [← Option.some.inj h']
        exact hlen
      · rw [if_neg hlen] at h'
        exact specFirstSuccess_len q rest e h'

/-- C7 (amended): a strategy succeeds only when its first matched
element's extracted text length exceeds 100 characters (not 200), and the
selector loop of `scrape_post_content` returns the first strategy (in list
order) whose text meets that bar, not the best-scoring one. -/
theorem c7_first_match_amended (q : String → List String) (e : String)
    (h : specFirstSuccess q contentSelectors = some e) :
    contentLoop q contentSelectors ("") = e ∧ 100 < e.length :=
  ⟨contentLoop_firstSuccess q contentSelectors ("") e h,
   specFirstSuccess_len q contentSelectors e h⟩

/-- Page stub whose first content selector matches one element with
exactly 150 characters of text. -/
def q150 : String → List String :=
  fun sel => if sel == (".thread-content .content-main")
             then [⟨List.replicate 150 ("a").front⟩] else []

/-- Page stub whose second content selector matches one element with 101
characters of text. -/
def q101 : String → List String :=
  fun sel => if sel == (".message-content")
             then [⟨List.replicate 101 ("a").front⟩] else []

set_option maxRecDepth 10000 in
theorem c7_first_match_amended_witness :
    specFirstSuccess q101 contentSelectors = some (⟨List.replicate 101 ("a").front⟩ : String)
    ∧ (contentLoop q101 contentSelectors ("") = (⟨List.replicate 101 ("a").front⟩ : String)
      ∧ 100 < ((⟨List.replicate 101 ("a").front⟩ : String)).length) :=
  ⟨by decide, c7_first_match_amended q101 (⟨List.replicate 101 ("a").front⟩ : String) (by decide)⟩

set_option maxRecDepth 10000 in
/-- C7 (counterexample): on a page whose first selector matches a
150-character element, the code accepts it (150 > 100) and returns it,
while under the claimed 200-character floor no strategy succeeds and the
engine would have to fall back to the body text — the two results
differ. -/
theorem c7_counterexample :
    scrapePostContent q150 ("BODYTEXT") = (⟨List.replicate 150 ("a").front⟩ : String)
    ∧ claimScrapePostContent q150 ("BODYTEXT") = ("BODYTEXT")
    ∧ (scrapePostContent q150 ("BODYTEXT")).length = 150
    ∧ scrapePostContent q150 ("BODYTEXT") ≠ claimScrapePostContent q150 ("BODYTEXT") := by
  decide

/-! ### Claim C10: the notification feature cap -/

/-- C10: when more than 10 features are passed to `send_notification`, the
message body lists exactly the first 10 features, in order, each as a
bullet line; features beyond the tenth are omitted (the body equals the
body built from just the first 10 features). -/
theorem c10_feature_cap (s : String) (fs : List String) (u : String)
    (h : 10 < fs.length) :
    bodyParts s fs u
      = [s, "", ("New Features:")] ++ (fs.take 10).map (fun f => ("• ") ++ f)
          ++ ["", ("Read more: ") ++ u]
    ∧ sendNotificationBody s fs u = sendNotificationBody s (fs.take 10) u
    ∧ (fs.take 10).length = 10 := by
  have hne : fs.isEmpty = false := by
    cases fs with
    | nil => simp at h
    | cons a l => rfl
  have hne10 : (fs.take 10).isEmpty = false := by
    cases fs with
    | nil => simp at h
    | cons a l => rfl
  have htt : (fs.take 10).take 10 = fs.take 10 := by
    rw [List.take_take]
    simp
  refine ⟨?_, ?_, ?_⟩
  · unfold bodyParts
    rw [hne]
    simp
  · unfold sendNotificationBody bodyParts
    rw [hne, hne10, htt]
  · rw [List.length_take]
    omega

theorem c10_feature_cap_witness :
    10 < ([("f1"), ("f2"), ("f3"), ("f4"), ("f5"), ("f6"), ("f7"), ("f8"), ("f9"), ("f10"),
          ("f11")] : List String).length
    ∧ (bodyParts ("S") [("f1"), ("f2"), ("f3"), ("f4"), ("f5"), ("f6"), ("f7"), ("f8"), ("f9"),
          ("f10"), ("f11")] ("U")
        = [("S"), "", ("New Features:")]
            ++ (([("f1"), ("f2"), ("f3"), ("f4"), ("f5"), ("f6"), ("f7"), ("f8"), ("f9"), ("f10"),
                  ("f11")] : List String).take 10).map (fun f => ("• ") ++ f)
            ++ ["", ("Read more: ") ++ ("U")]
      ∧ sendNotificationBody ("S") [("f1"), ("f2"), ("f3"), ("f4"), ("f5"), ("f6"), ("f7"), ("f8"),
            ("f9"), ("f10"), ("f11")] ("U")
          = sendNotificationBody ("S")
              (([("f1"), ("f2"), ("f3"), ("f4"), ("f5"), ("f6"), ("f7"), ("f8"), ("f9"), ("f10"),
                 ("f11")] : List String).take 10) ("U")
      ∧ (([("f1"), ("f2"), ("f3"), ("f4"), ("f5"), ("f6"), ("f7"), ("f8"), ("f9"), ("f10"),
           ("f11")] : List String).take 10).length = 10) :=
  ⟨by decide,
   c10_feature_cap ("S")
     [("f1"), ("f2"), ("f3"), ("f4"), ("f5"), ("f6"), ("f7"), ("f8"), ("f9"), ("f10"), ("f11")]
     ("U") (by decide)⟩

end VersePulse
